import Mathlib

/-
Shallow embedding of the order service (src/services/order-service/main.go).

The service manages an `orders` collection in a document store.  Handlers are
modelled as pure functions from the request data and the store state to a
result and (for writes) the new store state.  Go `float64` amounts are
modelled as exact rationals, Go `int` as `Int`, Mongo ObjectIDs as `Nat`
(decoded from a 24-character hex route parameter), and Go `interface\x7b\x7d`
values stored in the gin context as the `GoValue` type below.
-/

namespace OrderService

/-- A dynamically typed value, mirroring the Go empty-interface values that
appear in JWT claim maps and in the gin request context.  `vnull` is the nil
interface (a Go map lookup on a missing key). -/
inductive GoValue where
  | vstr (s : String)
  | vnum (q : Rat)
  | vbool (b : Bool)
  | vnull
deriving Repr, DecidableEq

/-- Whether the Go type assertion `v.(string)` would succeed on this value. -/
def GoValue.isString : GoValue → Bool
  | .vstr _ => true
  | _ => false

/-- OrderItem from main.go: product_id, name, price (float64), quantity (int). -/
structure OrderItem where
  productID : String
  name : String
  price : Rat
  quantity : Int
deriving Repr, DecidableEq

/-- Order from main.go.  `id` is the storage-assigned Mongo `_id`. -/
structure Order where
  id : Nat
  orderID : String
  userID : String
  items : List OrderItem
  totalAmount : Rat
  status : String
  createdAt : Nat
  updatedAt : Nat
deriving Repr, DecidableEq

/-- The `orders` collection plus the ObjectID generator state. -/
structure OrderStore where
  orders : List Order
  nextID : Nat
deriving Repr, DecidableEq

/-! ## Identity verifier (authMiddleware) -/

/-- Abstraction of a decoded JWT: whether its header algorithm is an HMAC
method, whether the signature/claims verify against the configured secret,
and the claim map. -/
structure ParsedToken where
  algHMAC : Bool
  valid : Bool
  claims : List (String × GoValue)
deriving Repr, DecidableEq

/-- Go map lookup `claims[k]`: nil interface when the key is absent. -/
def claimLookup (claims : List (String × GoValue)) (k : String) : GoValue :=
  match claims.find? (fun p => p.1 == k) with
  | some p => p.2
  | none => .vnull

/-- Outcome of authMiddleware: either an aborted 401 response with the
body message, or the request proceeds with `userID`/`email` context values. -/
inductive AuthResult where
  | unauthorized (msg : String)
  | ok (userID : GoValue) (email : GoValue)
deriving Repr, DecidableEq

/-- Go strings.TrimPrefix applied to the "Bearer " scheme prefix. -/
def trimBearer (s : String) : String :=
  if ("Bearer ".data).isPrefixOf s.data then String.mk (s.data.drop 7) else s

/-- authMiddleware from main.go, parameterised by the JWT decoder `parse`
(a pure function of the token string, the secret being fixed).
Mirrors: empty Authorization header → 401; TrimPrefix left the string
unchanged (no Bearer scheme) → 401; keyfunc rejects non-HMAC algorithms and
jwt.Parse rejects bad signatures/claims → 401; otherwise the MapClaims
lookups `userId` and `email` are stored in the context. -/
def authMiddleware (parse : String → ParsedToken) (authHeader : String) :
    AuthResult :=
  if authHeader = "" then .unauthorized "Authorization header required"
  else
    let tokenString := trimBearer authHeader
    if tokenString = authHeader then .unauthorized "Bearer token required"
    else
      let token := parse tokenString
      if !token.algHMAC then .unauthorized "Invalid token"
      else if !token.valid then .unauthorized "Invalid token"
      else .ok (claimLookup token.claims "userId")
               (claimLookup token.claims "email")

/-- The gin pipeline on the `/api/orders` group: the handler runs only when
authMiddleware did not abort the request.  `none` means the handler was
never invoked (the middleware wrote the 401 response and aborted). -/
def authedRequest {α : Type} (parse : String → ParsedToken)
    (authHeader : String) (handler : GoValue → GoValue → α) : Option α :=
  match authMiddleware parse authHeader with
  | .unauthorized _ => none
  | .ok u e => some (handler u e)

/-! ## Order lifecycle engine -/

/-- primitive.ObjectIDFromHex: the route parameter must be a 24-character
hex string; it decodes to the numeric ObjectID used as the `_id` key. -/
def hexDigitVal (c : Char) : Nat :=
  if c.isDigit then c.toNat - 48
  else if ('a' ≤ c) && (c ≤ 'f') then c.toNat - 87
  else if ('A' ≤ c) && (c ≤ 'F') then c.toNat - 55
  else 0

/-- Whether `c` is a hexadecimal digit (encoding/hex accepts both cases). -/
def isHexDigit (c : Char) : Bool :=
  c.isDigit || (('a' ≤ c) && (c ≤ 'f')) || (('A' ≤ c) && (c ≤ 'F'))

/-- primitive.ObjectIDFromHex from the Mongo driver: length must be 24 and
every character a hex digit, else the handler answers 400 "Invalid order ID". -/
def objectIDFromHex (s : String) : Option Nat :=
  if s.length == 24 && s.data.all isHexDigit then
    some (s.data.foldl (fun acc c => acc * 16 + hexDigitVal c) 0)
  else none

/-- Result of createOrder.  `badRequest` is the ShouldBindJSON failure
(400), `unauthorized` the missing-context-key branch (401), `panicked` the
`userID.(string)` type-assertion panic — gin.Recovery turns it into a 500
response — and `created` the 201 response carrying the persisted order. -/
inductive CreateResult where
  | badRequest
  | unauthorized
  | panicked
  | created (o : Order)
deriving Repr, DecidableEq

/-- HTTP status code written for each createOrder outcome (panic is
translated to 500 by the gin.Recovery middleware installed in main). -/
def CreateResult.httpCode : CreateResult → Nat
  | .badRequest => 400
  | .unauthorized => 401
  | .panicked => 500
  | .created _ => 201

/-- The running total loop in createOrder:
`totalAmount += item.Price * float64(item.Quantity)`. -/
def orderTotal (items : List OrderItem) : Rat :=
  items.foldl (fun acc item => acc + item.price * (item.quantity : Rat)) 0

/-- createOrder from main.go.  `itemsField` models the bound
CreateOrderRequest: `none` when ShouldBindJSON fails (malformed body, or a
missing/null `items` field — the `binding:"required"` validator only
rejects a nil slice, so a present-but-empty list binds successfully).
`ctxUserID` is the gin context entry written by authMiddleware (`none` when
the key was never set).  `newOrderID` is the fresh uuid and `now` the
current clock reading. -/
def createOrder (st : OrderStore) (ctxUserID : Option GoValue)
    (itemsField : Option (List OrderItem)) (newOrderID : String)
    (now : Nat) : OrderStore × CreateResult :=
  match itemsField with
  | none => (st, .badRequest)
  | some items =>
    match ctxUserID with
    | none => (st, .unauthorized)
    | some v =>
      match v with
      | .vstr userID =>
        let order : Order := {
          id := st.nextID
          orderID := newOrderID
          userID := userID
          items := items
          totalAmount := orderTotal items
          status := "pending"
          createdAt := now
          updatedAt := now }
        ({ orders := st.orders ++ [order], nextID := st.nextID + 1 },
         .created order)
      | _ => (st, .panicked)

/-- Result of getOrder: 400 on a malformed id, 404 when FindOne reports
ErrNoDocuments, 200 with the order body otherwise. -/
inductive GetResult where
  | invalidID
  | notFound
  | found (o : Order)
deriving Repr, DecidableEq

/-- HTTP status code of each getOrder outcome. -/
def GetResult.httpCode : GetResult → Nat
  | .invalidID => 400
  | .notFound => 404
  | .found _ => 200

/-- getOrder from main.go.  `ctxUserID` is the authenticated caller's
context entry; the handler body never reads it (no ownership check). -/
def getOrder (st : OrderStore) (ctxUserID : Option GoValue)
    (idParam : String) : GetResult :=
  match objectIDFromHex idParam with
  | none => .invalidID
  | some objectID =>
    match st.orders.find? (fun o => o.id == objectID) with
    | none => .notFound
    | some o => .found o

/-- Result of getUserOrders: 403 on the ownership check, a panic (500 via
gin.Recovery) when the context value fails the string type assertion, 200
with the matching orders otherwise. -/
inductive ListResult where
  | forbidden
  | panicked
  | found (orders : List Order)
deriving Repr, DecidableEq

/-- HTTP status code of each getUserOrders outcome (panic → 500 via
gin.Recovery). -/
def ListResult.httpCode : ListResult → Nat
  | .forbidden => 403
  | .panicked => 500
  | .found _ => 200

/-- getUserOrders from main.go: `if !exists || tokenUserID.(string) != userID`
answers 403; the short-circuit means the type assertion only runs when the
key exists, and a non-string value panics there.  On success the collection
is filtered by `user_id`. -/
def getUserOrders (st : OrderStore) (ctxUserID : Option GoValue)
    (userIdParam : String) : ListResult :=
  match ctxUserID with
  | none => .forbidden
  | some (.vstr s) =>
    if s != userIdParam then .forbidden
    else .found (st.orders.filter (fun o => o.userID == userIdParam))
  | some _ => .panicked

/-- Result of updateOrderStatus: 400 for a malformed id, a body that fails
ShouldBindJSON (`binding:"required"` rejects a missing or empty status
string), or a status outside the enumeration; 404 when UpdateOne matched no
document; 200 otherwise. -/
inductive UpdateResult where
  | invalidID
  | bindError
  | invalidStatus
  | notFound
  | updated (status : String)
deriving Repr, DecidableEq

/-- HTTP status code of each updateOrderStatus outcome. -/
def UpdateResult.httpCode : UpdateResult → Nat
  | .invalidID => 400
  | .bindError => 400
  | .invalidStatus => 400
  | .notFound => 404
  | .updated _ => 200

/-- The validStatuses set in updateOrderStatus. -/
def validStatuses : List String :=
  ["pending", "confirmed", "shipped", "delivered", "cancelled"]

/-- updateOrderStatus from main.go.  `statusField` models the bound
UpdateOrderStatusRequest (`none` when the body is malformed or the status
field missing/null; the required validator also rejects the empty string).
UpdateOne with filter `_id = objectID` sets `status` and `updated_at` on
every matching document and reports the matched count; the handler answers
404 when it is zero. -/
def updateOrderStatus (st : OrderStore) (idParam : String)
    (statusField : Option String) (now : Nat) : OrderStore × UpdateResult :=
  match objectIDFromHex idParam with
  | none => (st, .invalidID)
  | some objectID =>
    match statusField with
    | none => (st, .bindError)
    | some status =>
      if status = "" then (st, .bindError)
      else if !(validStatuses.contains status) then (st, .invalidStatus)
      else
        let newOrders := st.orders.map (fun o =>
          if o.id == objectID then { o with status := status, updatedAt := now }
          else o)
        let matchedCount := (st.orders.filter (fun o => o.id == objectID)).length
        let st2 : OrderStore := { st with orders := newOrders }
        if matchedCount == 0 then (st2, .notFound)
        else (st2, .updated status)

/-! ## Helper lemmas -/

/-- Running-total loop versus the mathematical sum. -/
theorem foldl_add_eq (f : OrderItem → Rat) (l : List OrderItem) (acc : Rat) :
    l.foldl (fun a it => a + f it) acc = acc + (l.map f).sum := by
  induction l generalizing acc with
  | nil => simp
  | cons a t ih =>
    simp only [List.foldl_cons, List.map_cons, List.sum_cons, ih]
    ring

/-- The createOrder total equals Σ unitPrice × quantity over the items. -/
theorem orderTotal_eq_sum (items : List OrderItem) :
    orderTotal items =
      (items.map (fun it => it.price * (it.quantity : Rat))).sum := by
  simpa using foldl_add_eq (fun it => it.price * (it.quantity : Rat)) items 0

/-- A projection untouched by the status update is preserved by the
UpdateOne document rewrite. -/
theorem map_proj_setStatus {β : Type} (proj : Order → β)
    (hp : ∀ o s n, proj { o with status := s, updatedAt := n } = proj o)
    (l : List Order) (oid : Nat) (s : String) (n : Nat) :
    (l.map (fun o =>
        if o.id == oid then { o with status := s, updatedAt := n } else o)).map
      proj = l.map proj := by
  induction l with
  | nil => rfl
  | cons a t ih =>
    simp only [List.map_cons, ih]
    by_cases h : (a.id == oid) = true
    · rw [if_pos h, hp]
    · rw [if_neg h]

/-- Every projection other than status/updatedAt of every stored order is
preserved by updateOrderStatus, on every control path. -/
theorem updateOrderStatus_orders_cases (st : OrderStore) (idParam : String)
    (f : Option String) (now : Nat) :
    (updateOrderStatus st idParam f now).1.orders = st.orders ∨
    (∃ oid s, objectIDFromHex idParam = some oid ∧ f = some s ∧
      (updateOrderStatus st idParam f now).1.orders =
        st.orders.map (fun o =>
          if o.id == oid then { o with status := s, updatedAt := now }
          else o)) := by
  cases hhex : objectIDFromHex idParam with
  | none => left; simp [updateOrderStatus, hhex]
  | some oid =>
    cases f with
    | none => left; simp [updateOrderStatus, hhex]
    | some s =>
      simp only [updateOrderStatus, hhex]
      split
      · left; rfl
      · split
        · left; rfl
        · right
          refine ⟨oid, s, rfl, rfl, ?_⟩
          split <;> rfl

/-- Every projection other than status/updatedAt of every stored order is
preserved by updateOrderStatus, on every control path. -/
theorem updateOrderStatus_orders_proj {β : Type} (proj : Order → β)
    (hp : ∀ o s n, proj { o with status := s, updatedAt := n } = proj o)
    (st : OrderStore) (idParam : String) (f : Option String) (now : Nat) :
    (updateOrderStatus st idParam f now).1.orders.map proj =
      st.orders.map proj := by
  rcases updateOrderStatus_orders_cases st idParam f now with h | ⟨oid, s, _, _, h⟩
  · rw [h]
  · rw [h, map_proj_setStatus proj hp]

/-! ## Claims -/

/-- Claim C1: an order accepted by createOrder is persisted with
totalAmount = Σ unitPrice × quantity over the request items and status
"pending", and the only mutating operation, updateOrderStatus, never
changes any stored totalAmount (the total is computed at creation only). -/
theorem createOrder_derives_total (st st2 : OrderStore) (u : String)
    (items : List OrderItem) (newOrderID : String) (now : Nat) (o : Order)
    (h : createOrder st (some (.vstr u)) (some items) newOrderID now =
      (st2, .created o)) :
    o.totalAmount =
      (items.map (fun it => it.price * (it.quantity : Rat))).sum ∧
    o.status = "pending" ∧
    o ∈ st2.orders ∧
    (∀ idParam f now2,
      (updateOrderStatus st2 idParam f now2).1.orders.map Order.totalAmount =
        st2.orders.map Order.totalAmount) := by
  simp only [createOrder] at h
  obtain ⟨hst, hres⟩ := Prod.mk.injEq .. ▸ h
  injection hres with ho
  subst hst
  subst ho
  refine ⟨orderTotal_eq_sum items, rfl, ?_, ?_⟩
  · simp
  · intro idParam f now2
    exact updateOrderStatus_orders_proj Order.totalAmount
      (fun _ _ _ => rfl) _ idParam f now2

/-- Witness data: a two-item creation request by "alice". -/
def wItems : List OrderItem := [⟨"p1", "widget", 10, 2⟩, ⟨"p2", "gadget", 3, 1⟩]

/-- Witness data: the persisted order for `wItems` (total 10·2 + 3·1 = 23). -/
def wOrder : Order :=
  ⟨0, "oid-1", "alice", wItems, orderTotal wItems, "pending", 5, 5⟩

/-- The witness total indeed evaluates to 23. -/
theorem wOrder_total : wOrder.totalAmount = 23 := by
  norm_num [wOrder, orderTotal, wItems]

/-- Witness data: the store after the witness creation. -/
def wStore1 : OrderStore := ⟨[wOrder], 1⟩

/-- Claim C1 witness at a concrete request. -/
theorem createOrder_derives_total_witness :
    wOrder.totalAmount =
      (wItems.map (fun it => it.price * (it.quantity : Rat))).sum ∧
    wOrder.status = "pending" ∧
    wOrder ∈ wStore1.orders ∧
    (∀ idParam f now2,
      (updateOrderStatus wStore1 idParam f now2).1.orders.map Order.totalAmount =
        wStore1.orders.map Order.totalAmount) :=
  createOrder_derives_total ⟨[], 0⟩ wStore1 "alice" wItems "oid-1" 5 wOrder
    (by rfl)

/-- Claim C2 counterexample: createOrder performs no item validation — an
empty item list is accepted (the `binding:"required"` validator only
rejects a nil slice) and the order is persisted with total 0, and an item
with negative price and zero quantity is accepted as well, contradicting
the claimed ValidationError rejection. -/
theorem createOrder_accepts_empty_cex :
    (createOrder ⟨[], 0⟩ (some (.vstr "alice")) (some []) "oid-1" 0).2 =
      .created ⟨0, "oid-1", "alice", [], 0, "pending", 0, 0⟩ ∧
    (createOrder ⟨[], 0⟩ (some (.vstr "alice")) (some []) "oid-1" 0).1.orders =
      [⟨0, "oid-1", "alice", [], 0, "pending", 0, 0⟩] ∧
    (createOrder ⟨[], 0⟩ (some (.vstr "alice"))
        (some [⟨"p1", "widget", -5, 0⟩]) "oid-2" 0).2 =
      .created ⟨0, "oid-2", "alice", [⟨"p1", "widget", -5, 0⟩], 0, "pending",
        0, 0⟩ := by
  refine ⟨rfl, rfl, ?_⟩
  norm_num [createOrder, orderTotal]

/-- Claim C2 (amended): createOrder rejects only a body whose items field
fails binding (missing/null items or malformed JSON) with HTTP 400; every
request whose items field is present — including an empty list or items
with non-positive quantity or negative price — is accepted and an order
for exactly those items is persisted. -/
theorem createOrder_item_validation (st : OrderStore) (u : String)
    (items : List OrderItem) (newOrderID : String) (now : Nat) :
    createOrder st (some (.vstr u)) none newOrderID now = (st, .badRequest) ∧
    CreateResult.badRequest.httpCode = 400 ∧
    createOrder st (some (.vstr u)) (some items) newOrderID now =
      ({ orders := st.orders ++
          [⟨st.nextID, newOrderID, u, items, orderTotal items, "pending",
            now, now⟩],
         nextID := st.nextID + 1 },
       .created ⟨st.nextID, newOrderID, u, items, orderTotal items, "pending",
         now, now⟩) :=
  ⟨rfl, rfl, rfl⟩

/-- Claim C3: listing by owner answers 403 Forbidden whenever the
authenticated subject differs from the requested owner, without consulting
the repository (the result is the same for every store state), and when
they agree it returns exactly the orders whose ownerID equals the
requested identity. -/
theorem getUserOrders_ownership (st st2 : OrderStore) (s p : String)
    (h : s ≠ p) :
    getUserOrders st (some (.vstr s)) p = .forbidden ∧
    ListResult.forbidden.httpCode = 403 ∧
    getUserOrders st (some (.vstr s)) p = getUserOrders st2 (some (.vstr s)) p ∧
    getUserOrders st (some (.vstr p)) p =
      .found (st.orders.filter (fun o => o.userID == p)) := by
  have hb : (s != p) = true := by simpa using h
  refine ⟨?_, rfl, ?_, ?_⟩
  · simp [getUserOrders, hb]
  · simp [getUserOrders, hb]
  · simp [getUserOrders]

/-- Witness data: an order owned by "bob". -/
def wBobOrder : Order := ⟨1, "o1", "bob", [], 0, "pending", 0, 0⟩

/-- Witness data: a store holding only bob's order. -/
def wStoreB : OrderStore := ⟨[wBobOrder], 2⟩

/-- Claim C3 witness: "alice" requesting bob's listing is forbidden on any
store; "bob" gets exactly his orders. -/
theorem getUserOrders_ownership_witness :
    getUserOrders wStoreB (some (.vstr "alice")) "bob" = .forbidden ∧
    ListResult.forbidden.httpCode = 403 ∧
    getUserOrders wStoreB (some (.vstr "alice")) "bob" =
      getUserOrders ⟨[], 0⟩ (some (.vstr "alice")) "bob" ∧
    getUserOrders wStoreB (some (.vstr "bob")) "bob" =
      .found (wStoreB.orders.filter (fun o => o.userID == "bob")) :=
  getUserOrders_ownership wStoreB ⟨[], 0⟩ "alice" "bob" (by decide)

/-- Claim C4: for every enumerated status value and every store containing
an order with the requested id, updateOrderStatus succeeds (200) no matter
what the order's current status is — there is no reachability check
against the current status. -/
theorem updateOrderStatus_no_reachability_check (st : OrderStore)
    (idParam : String) (oid : Nat) (s : String) (now : Nat)
    (hhex : objectIDFromHex idParam = some oid)
    (hs : s ∈ validStatuses)
    (hmatch : ∃ o ∈ st.orders, o.id = oid) :
    (updateOrderStatus st idParam (some s) now).2 = .updated s ∧
    (UpdateResult.updated s).httpCode = 200 := by
  obtain ⟨o, ho, hoid⟩ := hmatch
  have hne : s ≠ "" := by
    intro he
    subst he
    simp [validStatuses] at hs
  have hcont : validStatuses.contains s = true := by simpa using hs
  have hmem : o ∈ st.orders.filter (fun o2 => o2.id == oid) := by
    simp [List.mem_filter, ho, hoid]
  have hlen : ((st.orders.filter (fun o2 => o2.id == oid)).length == 0) =
      false := by
    have h0 : (st.orders.filter (fun o2 => o2.id == oid)).length ≠ 0 := by
      intro hz
      rw [List.length_eq_zero] at hz
      rw [hz] at hmem
      exact (List.not_mem_nil o) hmem
    simpa using h0
  constructor
  · simp [updateOrderStatus, hhex, if_neg hne, hs, hcont, hlen]
  · rfl

/-- Claim C4 witness: a delivered order is moved back to "pending". -/
theorem updateOrderStatus_no_reachability_check_witness :
    (updateOrderStatus ⟨[⟨1, "o1", "bob", [], 0, "delivered", 0, 0⟩], 2⟩
        "000000000000000000000001" (some "pending") 9).2 = .updated "pending" ∧
    (UpdateResult.updated "pending").httpCode = 200 :=
  updateOrderStatus_no_reachability_check
    ⟨[⟨1, "o1", "bob", [], 0, "delivered", 0, 0⟩], 2⟩
    "000000000000000000000001" 1 "pending" 9 (by decide) (by decide)
    ⟨⟨1, "o1", "bob", [], 0, "delivered", 0, 0⟩, by simp, rfl⟩

/-- Claim C5: a status-transition request whose target status is outside
the enumeration always fails with HTTP 400 and leaves the store untouched
(no field, updatedAt included, changes). -/
theorem updateOrderStatus_invalid_status (st : OrderStore) (idParam : String)
    (s : String) (now : Nat) (hs : s ∉ validStatuses) :
    (updateOrderStatus st idParam (some s) now).1 = st ∧
    ((updateOrderStatus st idParam (some s) now).2).httpCode = 400 := by
  have hcont : validStatuses.contains s = false := by simpa using hs
  cases hhex : objectIDFromHex idParam with
  | none =>
    constructor <;> simp [updateOrderStatus, hhex, UpdateResult.httpCode]
  | some oid =>
    by_cases h1 : s = ""
    · constructor <;>
        simp [updateOrderStatus, hhex, h1, UpdateResult.httpCode]
    · constructor <;>
        simp [updateOrderStatus, hhex, if_neg h1, hs, hcont,
          UpdateResult.httpCode]

/-- Claim C5 witness: the unenumerated status "refunded" is rejected with
400 and the delivered order keeps all its fields. -/
theorem updateOrderStatus_invalid_status_witness :
    (updateOrderStatus ⟨[⟨1, "o1", "bob", [], 0, "delivered", 0, 0⟩], 2⟩
        "000000000000000000000001" (some "refunded") 9).1 =
      ⟨[⟨1, "o1", "bob", [], 0, "delivered", 0, 0⟩], 2⟩ ∧
    ((updateOrderStatus ⟨[⟨1, "o1", "bob", [], 0, "delivered", 0, 0⟩], 2⟩
        "000000000000000000000001" (some "refunded") 9).2).httpCode = 400 :=
  updateOrderStatus_invalid_status
    ⟨[⟨1, "o1", "bob", [], 0, "delivered", 0, 0⟩], 2⟩
    "000000000000000000000001" "refunded" 9 (by decide)

/-- Claim C6: an otherwise valid status transition naming a well-formed id
that matches no stored order answers 404 NotFound (matchedCount = 0) and
leaves every stored order unchanged. -/
theorem updateOrderStatus_unknown_id (st : OrderStore) (idParam : String)
    (oid : Nat) (s : String) (now : Nat)
    (hhex : objectIDFromHex idParam = some oid)
    (hs : s ∈ validStatuses)
    (hnone : ∀ o ∈ st.orders, o.id ≠ oid) :
    updateOrderStatus st idParam (some s) now = (st, .notFound) ∧
    UpdateResult.notFound.httpCode = 404 := by
  have hne : s ≠ "" := by
    intro he
    subst he
    simp [validStatuses] at hs
  have hcont : validStatuses.contains s = true := by simpa using hs
  have hfil : st.orders.filter (fun o => o.id == oid) = [] := by
    rw [List.filter_eq_nil_iff]
    intro o ho
    simpa using hnone o ho
  have hmap : st.orders.map (fun o =>
      if o.id == oid then { o with status := s, updatedAt := now } else o) =
      st.orders := by
    have hself : ∀ o ∈ st.orders, (if o.id == oid then
        { o with status := s, updatedAt := now } else o) = o := by
      intro o ho
      rw [if_neg]
      simpa using hnone o ho
    rw [List.map_congr_left hself]
    simp
  constructor
  · have hgoal := hmap
    simp only [beq_iff_eq] at hgoal
    simp [updateOrderStatus, hhex, if_neg hne, hs, hcont, hfil, hgoal]
  · rfl

/-- Claim C6 witness: transitioning id 2 in a store that only holds id 1
answers 404 and changes nothing. -/
theorem updateOrderStatus_unknown_id_witness :
    updateOrderStatus ⟨[⟨1, "o1", "bob", [], 0, "delivered", 0, 0⟩], 2⟩
        "000000000000000000000002" (some "pending") 9 =
      (⟨[⟨1, "o1", "bob", [], 0, "delivered", 0, 0⟩], 2⟩, .notFound) ∧
    UpdateResult.notFound.httpCode = 404 :=
  updateOrderStatus_unknown_id
    ⟨[⟨1, "o1", "bob", [], 0, "delivered", 0, 0⟩], 2⟩
    "000000000000000000000002" 2 "pending" 9 (by decide) (by decide)
    (by intro o ho; simp at ho; subst ho; decide)

/-- Claim C7: getOrder never reads the caller's identity — two arbitrary
authenticated callers always receive the identical outcome — and that
outcome is the stored order when the id resolves, NotFound when it does
not, independent of ownership. -/
theorem getOrder_no_ownership_check (st : OrderStore) (idParam : String)
    (c1 c2 : Option GoValue) :
    getOrder st c1 idParam = getOrder st c2 idParam ∧
    (objectIDFromHex idParam = none → getOrder st c1 idParam = .invalidID) ∧
    (∀ oid, objectIDFromHex idParam = some oid →
      st.orders.find? (fun o => o.id == oid) = none →
      getOrder st c1 idParam = .notFound) ∧
    (∀ oid o, objectIDFromHex idParam = some oid →
      st.orders.find? (fun o2 => o2.id == oid) = some o →
      getOrder st c1 idParam = .found o) := by
  refine ⟨rfl, ?_, ?_, ?_⟩
  · intro hnone
    simp [getOrder, hnone]
  · intro oid hhex hfind
    simp [getOrder, hhex, hfind]
  · intro oid o hhex hfind
    simp [getOrder, hhex, hfind]

/-- Claim C7 witness: "alice" (not the owner) and "bob" (the owner) both
receive bob's order by id. -/
theorem getOrder_no_ownership_check_witness :
    getOrder wStoreB (some (.vstr "alice")) "000000000000000000000001" =
      getOrder wStoreB (some (.vstr "bob")) "000000000000000000000001" ∧
    (objectIDFromHex "000000000000000000000001" = none →
      getOrder wStoreB (some (.vstr "alice")) "000000000000000000000001" =
        .invalidID) ∧
    (∀ oid, objectIDFromHex "000000000000000000000001" = some oid →
      wStoreB.orders.find? (fun o => o.id == oid) = none →
      getOrder wStoreB (some (.vstr "alice")) "000000000000000000000001" =
        .notFound) ∧
    (∀ oid o, objectIDFromHex "000000000000000000000001" = some oid →
      wStoreB.orders.find? (fun o2 => o2.id == oid) = some o →
      getOrder wStoreB (some (.vstr "alice")) "000000000000000000000001" =
        .found o) :=
  getOrder_no_ownership_check wStoreB "000000000000000000000001"
    (some (.vstr "alice")) (some (.vstr "bob"))

/-- TrimPrefix strips exactly the scheme prefix from a Bearer header. -/
theorem trimBearer_append (t : String) : trimBearer ("Bearer " ++ t) = t := by
  unfold trimBearer
  rw [String.data_append, if_pos]
  · have hd : ("Bearer ".data ++ t.data).drop 7 = t.data :=
      List.drop_left "Bearer ".data t.data
    rw [hd]
  · rw [List.isPrefixOf_iff_prefix]
    exact List.prefix_append _ _

/-- A Bearer header is nonempty and strictly shrinks under TrimPrefix, so
authMiddleware reaches the JWT parse on it; the outcome is then decided by
the keyfunc algorithm check, the signature/claims check, and the claim
lookups. -/
theorem authMiddleware_bearer (parse : String → ParsedToken) (t : String) :
    authMiddleware parse ("Bearer " ++ t) =
      (if !(parse t).algHMAC then .unauthorized "Invalid token"
       else if !(parse t).valid then .unauthorized "Invalid token"
       else .ok (claimLookup (parse t).claims "userId")
                (claimLookup (parse t).claims "email")) := by
  have h7 : "Bearer ".length = 7 := rfl
  have h0 : "".length = 0 := rfl
  have hne : ("Bearer " ++ t) ≠ "" := by
    intro h
    have hlen := congrArg String.length h
    rw [String.length_append, h7, h0] at hlen
    omega
  have htrim : trimBearer ("Bearer " ++ t) = t := trimBearer_append t
  have hneq : t ≠ "Bearer " ++ t := by
    intro h
    have hlen := congrArg String.length h
    rw [String.length_append, h7] at hlen
    omega
  simp only [authMiddleware, if_neg hne, htrim, if_neg hneq]

/-- Claim C8: the identity verifier answers 401 when no credential is
presented and 401 when the scheme is not Bearer; a parsed credential whose
signing algorithm is not HMAC is always rejected (401 "Invalid token"),
whatever its signature or claims; and whenever the middleware rejects, the
guarded handler is never invoked. -/
theorem authMiddleware_rejections (parse : String → ParsedToken)
    (authHeader : String) (t : String)
    (hne : authHeader ≠ "")
    (hpre : ("Bearer ".data).isPrefixOf authHeader.data = false)
    (halg : (parse t).algHMAC = false) :
    authMiddleware parse "" = .unauthorized "Authorization header required" ∧
    authMiddleware parse authHeader = .unauthorized "Bearer token required" ∧
    authMiddleware parse ("Bearer " ++ t) = .unauthorized "Invalid token" ∧
    (∀ (α : Type) (handler : GoValue → GoValue → α) (hdr msg : String),
      authMiddleware parse hdr = .unauthorized msg →
      authedRequest parse hdr handler = none) := by
  refine ⟨rfl, ?_, ?_, ?_⟩
  · have htrim : trimBearer authHeader = authHeader := by
      simp [trimBearer, hpre]
    simp [authMiddleware, hne, htrim]
  · rw [authMiddleware_bearer]
    simp [halg]
  · intro α handler hdr msg h
    simp [authedRequest, h]

/-- Claim C8 witness: a Basic-scheme header and a token signed with a
non-HMAC algorithm are both rejected, and the createOrder handler is never
reached on a rejected request. -/
theorem authMiddleware_rejections_witness :
    authMiddleware (fun _ => ⟨false, true, []⟩) "" =
      .unauthorized "Authorization header required" ∧
    authMiddleware (fun _ => ⟨false, true, []⟩) "Basic abc" =
      .unauthorized "Bearer token required" ∧
    authMiddleware (fun _ => ⟨false, true, []⟩) ("Bearer " ++ "abc") =
      .unauthorized "Invalid token" ∧
    (∀ (α : Type) (handler : GoValue → GoValue → α) (hdr msg : String),
      authMiddleware (fun _ => ⟨false, true, []⟩) hdr = .unauthorized msg →
      authedRequest (fun _ => ⟨false, true, []⟩) hdr handler = none) :=
  authMiddleware_rejections (fun _ => ⟨false, true, []⟩) "Basic abc" "abc"
    (by decide) (by decide) rfl

/-- Claim C9: updateOrderStatus preserves, for every stored order, the id,
orderID, ownerID, items, totalAmount and createdAt fields (only status and
updatedAt can change), keeps the collection length, leaves every order with
a different id entirely unchanged, and no core operation deletes an order
(createOrder only appends). -/
theorem updateOrderStatus_frame (st : OrderStore) (idParam : String)
    (f : Option String) (now : Nat) :
    (updateOrderStatus st idParam f now).1.orders.length =
      st.orders.length ∧
    (updateOrderStatus st idParam f now).1.orders.map Order.id =
      st.orders.map Order.id ∧
    (updateOrderStatus st idParam f now).1.orders.map Order.orderID =
      st.orders.map Order.orderID ∧
    (updateOrderStatus st idParam f now).1.orders.map Order.userID =
      st.orders.map Order.userID ∧
    (updateOrderStatus st idParam f now).1.orders.map Order.items =
      st.orders.map Order.items ∧
    (updateOrderStatus st idParam f now).1.orders.map Order.totalAmount =
      st.orders.map Order.totalAmount ∧
    (updateOrderStatus st idParam f now).1.orders.map Order.createdAt =
      st.orders.map Order.createdAt ∧
    (∀ oid, objectIDFromHex idParam = some oid →
      ∀ o ∈ st.orders, o.id ≠ oid →
        o ∈ (updateOrderStatus st idParam f now).1.orders) ∧
    (∀ ctx itemsField newOrderID now2 o, o ∈ st.orders →
      o ∈ (createOrder st ctx itemsField newOrderID now2).1.orders) := by
  have hid := updateOrderStatus_orders_proj Order.id (fun _ _ _ => rfl)
    st idParam f now
  refine ⟨?_, hid,
    updateOrderStatus_orders_proj Order.orderID (fun _ _ _ => rfl)
      st idParam f now,
    updateOrderStatus_orders_proj Order.userID (fun _ _ _ => rfl)
      st idParam f now,
    updateOrderStatus_orders_proj Order.items (fun _ _ _ => rfl)
      st idParam f now,
    updateOrderStatus_orders_proj Order.totalAmount (fun _ _ _ => rfl)
      st idParam f now,
    updateOrderStatus_orders_proj Order.createdAt (fun _ _ _ => rfl)
      st idParam f now, ?_, ?_⟩
  · have hl := congrArg List.length hid
    simpa using hl
  · intro oid hhex o ho hne
    rcases updateOrderStatus_orders_cases st idParam f now with
      hcase | ⟨oid2, s2, hhex2, _, hcase⟩
    · rw [hcase]
      exact ho
    · rw [hhex] at hhex2
      injection hhex2 with h12
      subst h12
      rw [hcase]
      refine List.mem_map.mpr ⟨o, ho, ?_⟩
      show (if o.id == oid then { o with status := s2, updatedAt := now }
        else o) = o
      rw [if_neg]
      simpa using hne
  · intro ctx itemsField newOrderID now2 o ho
    cases itemsField with
    | none => exact ho
    | some items =>
      cases ctx with
      | none => exact ho
      | some v =>
        cases v with
        | vstr u => exact List.mem_append_left _ ho
        | vnum q => exact ho
        | vbool b => exact ho
        | vnull => exact ho

/-- Claim C9 witness at a concrete one-order store and transition. -/
theorem updateOrderStatus_frame_witness :
    (updateOrderStatus wStoreB "000000000000000000000001"
        (some "confirmed") 9).1.orders.length = wStoreB.orders.length ∧
    (updateOrderStatus wStoreB "000000000000000000000001"
        (some "confirmed") 9).1.orders.map Order.id =
      wStoreB.orders.map Order.id ∧
    (updateOrderStatus wStoreB "000000000000000000000001"
        (some "confirmed") 9).1.orders.map Order.orderID =
      wStoreB.orders.map Order.orderID ∧
    (updateOrderStatus wStoreB "000000000000000000000001"
        (some "confirmed") 9).1.orders.map Order.userID =
      wStoreB.orders.map Order.userID ∧
    (updateOrderStatus wStoreB "000000000000000000000001"
        (some "confirmed") 9).1.orders.map Order.items =
      wStoreB.orders.map Order.items ∧
    (updateOrderStatus wStoreB "000000000000000000000001"
        (some "confirmed") 9).1.orders.map Order.totalAmount =
      wStoreB.orders.map Order.totalAmount ∧
    (updateOrderStatus wStoreB "000000000000000000000001"
        (some "confirmed") 9).1.orders.map Order.createdAt =
      wStoreB.orders.map Order.createdAt ∧
    (∀ oid, objectIDFromHex "000000000000000000000001" = some oid →
      ∀ o ∈ wStoreB.orders, o.id ≠ oid →
        o ∈ (updateOrderStatus wStoreB "000000000000000000000001"
          (some "confirmed") 9).1.orders) ∧
    (∀ ctx itemsField newOrderID now2 o, o ∈ wStoreB.orders →
      o ∈ (createOrder wStoreB ctx itemsField newOrderID now2).1.orders) :=
  updateOrderStatus_frame wStoreB "000000000000000000000001"
    (some "confirmed") 9

/-- Claim C10: a correctly signed HMAC credential is admitted whatever its
claim map holds — a missing "userId" key yields the nil value — and a
non-string context value makes the unchecked type assertions panic:
createOrder answers through gin.Recovery with 500 (not 401) and persists
nothing, and getUserOrders panics the same way. -/
theorem duck_typed_claims_panic (parse : String → ParsedToken) (t : String)
    (halg : (parse t).algHMAC = true) (hval : (parse t).valid = true) :
    authMiddleware parse ("Bearer " ++ t) =
      .ok (claimLookup (parse t).claims "userId")
          (claimLookup (parse t).claims "email") ∧
    (∀ claims : List (String × GoValue),
      claims.find? (fun p => p.1 == "userId") = none →
      claimLookup claims "userId" = .vnull) ∧
    (∀ st items newOrderID now (v : GoValue), v.isString = false →
      createOrder st (some v) (some items) newOrderID now =
        (st, .panicked)) ∧
    (∀ st (v : GoValue) p, v.isString = false →
      getUserOrders st (some v) p = .panicked) ∧
    CreateResult.panicked.httpCode = 500 ∧
    ListResult.panicked.httpCode = 500 := by
  refine ⟨?_, ?_, ?_, ?_, rfl, rfl⟩
  · rw [authMiddleware_bearer]
    simp [halg, hval]
  · intro claims hf
    simp [claimLookup, hf]
  · intro st items newOrderID now v hv
    cases v with
    | vstr s => simp [GoValue.isString] at hv
    | vnum q => rfl
    | vbool b => rfl
    | vnull => rfl
  · intro st v p hv
    cases v with
    | vstr s => simp [GoValue.isString] at hv
    | vnum q => rfl
    | vbool b => rfl
    | vnull => rfl

/-- Claim C10 witness: a valid token carrying only an email claim. -/
theorem duck_typed_claims_panic_witness :
    authMiddleware (fun _ => ⟨true, true, [("email", .vstr "e")]⟩)
        ("Bearer " ++ "tok") =
      .ok (claimLookup [("email", .vstr "e")] "userId")
          (claimLookup [("email", .vstr "e")] "email") ∧
    (∀ claims : List (String × GoValue),
      claims.find? (fun p => p.1 == "userId") = none →
      claimLookup claims "userId" = .vnull) ∧
    (∀ st items newOrderID now (v : GoValue), v.isString = false →
      createOrder st (some v) (some items) newOrderID now =
        (st, .panicked)) ∧
    (∀ st (v : GoValue) p, v.isString = false →
      getUserOrders st (some v) p = .panicked) ∧
    CreateResult.panicked.httpCode = 500 ∧
    ListResult.panicked.httpCode = 500 :=
  duck_typed_claims_panic (fun _ => ⟨true, true, [("email", .vstr "e")]⟩)
    "tok" rfl rfl

end OrderService
